import Mathlib

/-!
# go-nettyserver: the forwarding handler of `main.go`

A shallow embedding of `proxyHandler`, `setCORSHeaders` and `copyHeaders`.

* `http.Header` is Go's `map[string][]string`.  It is represented by a finite map with
  unique keys (`AList`); the order of the entries stands for the unspecified order in which
  a Go `range` visits the map, so a statement over every `Header` covers every order.
* The handler is stateful (response writer, logger, outbound client).  It is embedded by
  explicit state passing: it receives the response writer and returns the updated writer,
  the lines it logged and the calls it made to `http.NewRequest` and `client.Do`.
* The network and the URL parser are outside the program.  They enter as the fields of
  `Env`: any function is admitted, so a statement over every `Env` covers every behaviour
  of the upstream.
* A body stream is represented by the bytes it yields when it is read to its end.
* A call that panics returns `none`.  The only panic in reach of the handler is the one of
  `WriteHeader` on a status code below 100 or above 999.
-/

namespace NettyProxy

/-! ## Library: `net/textproto` and `net/http` headers -/

/-- Bytes allowed in a header field name (`validHeaderFieldByte` of `net/textproto`):
digits, ASCII letters and the fifteen token punctuation bytes of RFC 7230. -/
def validHeaderFieldByte (c : Char) : Bool :=
  let n := c.toNat
  decide (48 ≤ n ∧ n ≤ 57) || decide (97 ≤ n ∧ n ≤ 122) || decide (65 ≤ n ∧ n ≤ 90) ||
    [33, 35, 36, 37, 38, 39, 42, 43, 45, 46, 94, 95, 96, 124, 126].contains n

/-- The canonicalising loop of `canonicalMIMEHeaderKey`: a letter is made upper case when
`upper` is set (first byte, or the byte after a dash) and lower case otherwise. -/
def canonicalizeLoop : Bool → List Char → List Char
  | _, [] => []
  | upper, c :: cs =>
    let n := c.toNat
    let c1 : Char :=
      if upper && decide (97 ≤ n ∧ n ≤ 122) then Char.ofNat (n - 32)
      else if !upper && decide (65 ≤ n ∧ n ≤ 90) then Char.ofNat (n + 32)
      else c
    c1 :: canonicalizeLoop (c1 == Char.ofNat 45) cs

/-- Go's `textproto.CanonicalMIMEHeaderKey` (used by `http.Header.Add/Set/Del`): a key that
holds a space or another invalid header byte is returned unchanged; otherwise the first
letter and every letter after a dash become upper case and the rest lower case. -/
def CanonicalMIMEHeaderKey (s : String) : String :=
  if s.data.all validHeaderFieldByte then String.mk (canonicalizeLoop true s.data) else s

/-- Go's `http.Header`, a `map[string][]string`. -/
abbrev Header := AList (fun _ : String => List String)

/-- Go's map index expression `h[key]`: the values of the key, `nil` when it is absent. -/
def Header.values (h : Header) (key : String) : List String :=
  (h.lookup key).getD []

/-- Go's `Header.Add`: appends the value to the values of the canonicalised key. -/
def Header.Add (h : Header) (key value : String) : Header :=
  h.insert (CanonicalMIMEHeaderKey key) (h.values (CanonicalMIMEHeaderKey key) ++ [value])

/-- Go's `Header.Set`: the canonicalised key gets the single value. -/
def Header.Set (h : Header) (key value : String) : Header :=
  h.insert (CanonicalMIMEHeaderKey key) [value]

/-- Go's `Header.Del`: removes the canonicalised key. -/
def Header.Del (h : Header) (key : String) : Header :=
  h.erase (CanonicalMIMEHeaderKey key)

/-! ## Library: requests, responses, the response writer -/

/-- A byte sequence (`[]byte`, or the content an `io.Reader` yields). -/
abbrev Bytes := List UInt8

/-- Go's conversion `[]byte(s)` of a string. -/
def bytesOf (s : String) : Bytes := s.toUTF8.data.toList

/-- The fields of `url.URL` the handler can observe on the inbound request. -/
structure URL where
  Path : String
  RawQuery : String
  deriving DecidableEq

/-- The inbound `*http.Request`: the fields the handler reads. -/
structure Request where
  Method : String
  URL : URL
  Header : Header
  Body : Bytes
  deriving DecidableEq

/-- The `*http.Request` returned by `http.NewRequest`; `Target` is the URL string it was
built from. -/
structure ForwardedRequest where
  Method : String
  Target : String
  Header : Header
  Body : Bytes
  deriving DecidableEq

/-- The `*http.Response` returned by `client.Do`. -/
structure Response where
  StatusCode : Int
  Header : Header
  Body : Bytes
  deriving DecidableEq

/-- What lies outside the handler: the configured upstream base URL, the verdict of
`http.NewRequest` on a method and a URL string (`some err` when the method is not a valid
token or `url.Parse` rejects the string), and the upstream call `client.Do` (`.error` for a
connection failure or a timeout).  An error is represented by its message. -/
structure Env where
  apiGatewayURL : String
  newRequestError : String → String → Option String
  clientDo : ForwardedRequest → Except String Response

/-- Go's `http.NewRequest(method, url, body)`: fails when the method or the URL is malformed,
otherwise returns a request with the method (`""` means `GET`), the URL, an empty header map
and the body. -/
def http.NewRequest (env : Env) (method url : String) (body : Bytes) :
    Except String ForwardedRequest :=
  match env.newRequestError method url with
  | some err => .error err
  | none =>
    .ok { Method := if method = "" then "GET" else method, Target := url, Header := ∅,
          Body := body }

/-- The `http.ResponseWriter` the server hands to the handler.  `header` is the map
returned by `w.Header()`, `statusWrites` lists the code of every `WriteHeader` call that
returned, in order, `sent` is the final status and the snapshot of the header map committed
with it (later calls and later changes of the map have no effect on the response), `body`
the bytes written. -/
structure ResponseWriter where
  header : Header
  statusWrites : List Int
  sent : Option (Int × Header)
  body : Bytes
  deriving DecidableEq

/-- The writer of a request that has not been answered yet. -/
def ResponseWriter.fresh : ResponseWriter :=
  { header := ∅, statusWrites := [], sent := none, body := [] }

/-- Go's `w.WriteHeader(code)` on the server's writer.  A call after the final status is
superfluous and changes nothing; otherwise a code below 100 or above 999 panics
(`checkWriteHeaderCode`), a 1xx code other than 101 is sent as an interim header and
commits nothing, and any other code is committed as the final status together with the
header map. -/
def ResponseWriter.WriteHeader (w : ResponseWriter) (code : Int) : Option ResponseWriter :=
  match w.sent with
  | some _ => some { w with statusWrites := w.statusWrites ++ [code] }
  | none =>
    if code < 100 ∨ code > 999 then none
    else if code ≥ 100 ∧ code ≤ 199 ∧ code ≠ 101 then
      some { w with statusWrites := w.statusWrites ++ [code] }
    else
      some { w with statusWrites := w.statusWrites ++ [code], sent := some (code, w.header) }

/-- Go's `w.Write(b)`: the first write without a final status triggers `WriteHeader(200)`. -/
def ResponseWriter.Write (w : ResponseWriter) (b : Bytes) : Option ResponseWriter :=
  match w.sent with
  | none => (w.WriteHeader 200).map (fun w1 => { w1 with body := w1.body ++ b })
  | some _ => some { w with body := w.body ++ b }

/-- Go's `http.Error(w, msg, code)`: drops `Content-Length`, sets the plain-text content
type and `nosniff`, writes the status, then the message followed by a newline. -/
def http.Error (w : ResponseWriter) (msg : String) (code : Int) : Option ResponseWriter :=
  let h := ((w.header.Del "Content-Length").Set "Content-Type"
    "text/plain; charset=utf-8").Set "X-Content-Type-Options" "nosniff"
  match { w with header := h }.WriteHeader code with
  | none => none
  | some w1 => w1.Write (bytesOf (msg ++ "\n"))

/-- The header map `http.Error` leaves on a writer whose map was empty. -/
def errorHeader : Header :=
  ((∅ : Header).insert "Content-Type" ["text/plain; charset=utf-8"]).insert
    "X-Content-Type-Options" ["nosniff"]

/-- Go's `io.Copy(w, src)`: writes what the reader yields; nothing is written for an empty
stream. -/
def io.Copy (w : ResponseWriter) (src : Bytes) : Option ResponseWriter :=
  if src = [] then some w else w.Write src

/-! ## `main.go` -/

/-- The test of `copyHeaders` on a key (main.go, lines 99-101). -/
def isCORSKey (key : String) : Bool :=
  key = "Access-Control-Allow-Origin" ||
    key = "Access-Control-Allow-Methods" ||
    key = "Access-Control-Allow-Headers"

/-- The function `setCORSHeaders` (main.go, lines 90-94). -/
def setCORSHeaders (w : ResponseWriter) : ResponseWriter :=
  let h := w.header.Set "Access-Control-Allow-Origin" "*"
  let h := h.Set "Access-Control-Allow-Methods" "POST, GET, OPTIONS, PUT, DELETE"
  let h := h.Set "Access-Control-Allow-Headers" "Content-Type, Authorization, Range"
  { w with header := h }

/-- The body of the outer loop of `copyHeaders` for one key and its values. -/
def copyHeadersStep (dst : Header) (kv : Sigma (fun _ : String => List String)) : Header :=
  if isCORSKey kv.1 then dst
  else kv.2.foldl (fun dst value => dst.Add kv.1 value) dst

/-- The function `copyHeaders(from, to)` (main.go, lines 97-108), with `src` for `from` and
`dst` for `to`; the result is the map `to` after the call. -/
def copyHeaders (src dst : Header) : Header :=
  src.entries.foldl copyHeadersStep dst

/-- The ways a run of `proxyHandler` ends: its five returns, and the panic of a call it
makes (the server recovers it and closes the connection). -/
inductive Outcome where
  | root
  | preflight
  | badRequest
  | serviceUnavailable
  | proxied
  | panicked
  deriving DecidableEq

/-- What one run of `proxyHandler` leaves behind: the way it ended, the response writer (on
a panic, the writer as it stood at the panicking call), the lines passed to `log.Printf`,
the argument triples of its `http.NewRequest` calls and the requests handed to
`client.Do`. -/
structure Result where
  outcome : Outcome
  w : ResponseWriter
  log : List String
  newRequestCalls : List (String × String × Bytes)
  doCalls : List ForwardedRequest
  deriving DecidableEq

/-- The function `proxyHandler(w, req)` (main.go, lines 33-87).  The deferred
`resp.Body.Close()` releases a resource and leaves no trace in the result. -/
def proxyHandler (env : Env) (w : ResponseWriter) (req : Request) : Result :=
  let log0 := ["Received " ++ req.Method ++ " request for " ++ req.URL.Path]
  if req.URL.Path = "/" then
    let w := { w with header := w.header.Set "Content-Type" "text/plain" }
    match w.WriteHeader 200 with
    | none =>
      { outcome := .panicked, w := w, log := log0, newRequestCalls := [], doCalls := [] }
    | some w1 =>
      match w1.Write (bytesOf "Netty server deployed by Mujahid in Golang") with
      | none =>
        { outcome := .panicked, w := w1, log := log0, newRequestCalls := [], doCalls := [] }
      | some w2 =>
        { outcome := .root, w := w2, log := log0, newRequestCalls := [], doCalls := [] }
  else if req.Method = "OPTIONS" then
    let w := setCORSHeaders w
    match w.WriteHeader 200 with
    | none =>
      { outcome := .panicked, w := w, log := log0, newRequestCalls := [], doCalls := [] }
    | some w1 =>
      { outcome := .preflight, w := w1, log := log0, newRequestCalls := [], doCalls := [] }
  else
    let target := env.apiGatewayURL ++ req.URL.Path
    let calls := [(req.Method, target, req.Body)]
    match http.NewRequest env req.Method target req.Body with
    | .error _ =>
      match http.Error w "Bad request" 400 with
      | none =>
        { outcome := .panicked, w := w, log := log0, newRequestCalls := calls,
          doCalls := [] }
      | some w1 =>
        { outcome := .badRequest, w := w1, log := log0, newRequestCalls := calls,
          doCalls := [] }
    | .ok forwardedReq =>
      let forwardedReq :=
        { forwardedReq with Header := copyHeaders req.Header forwardedReq.Header }
      match env.clientDo forwardedReq with
      | .error err =>
        let log1 := log0 ++ ["Error forwarding request to API Gateway: " ++ err]
        match http.Error w "Service unavailable" 503 with
        | none =>
          { outcome := .panicked, w := w, log := log1, newRequestCalls := calls,
            doCalls := [forwardedReq] }
        | some w1 =>
          { outcome := .serviceUnavailable, w := w1, log := log1, newRequestCalls := calls,
            doCalls := [forwardedReq] }
      | .ok resp =>
        let w := setCORSHeaders w
        let w := { w with header := copyHeaders resp.Header w.header }
        match w.WriteHeader resp.StatusCode with
        | none =>
          { outcome := .panicked, w := w, log := log0, newRequestCalls := calls,
            doCalls := [forwardedReq] }
        | some w1 =>
          match io.Copy w1 resp.Body with
          | none =>
            { outcome := .panicked, w := w1, log := log0, newRequestCalls := calls,
              doCalls := [forwardedReq] }
          | some w2 =>
            { outcome := .proxied, w := w2,
              log := log0 ++ ["Response from API Gateway: " ++ toString resp.StatusCode],
              newRequestCalls := calls, doCalls := [forwardedReq] }

/-- The response the caller receives: status, header map and body, once a final status has
been written. -/
def ResponseWriter.response (w : ResponseWriter) : Option (Int × Header × Bytes) :=
  w.sent.map (fun s => (s.1, s.2, w.body))

/-! ## Concrete runs -/

/-- The eight bytes of the JSON object whose member `id` is 5. -/
def jsonId5 : Bytes := [123, 34, 105, 100, 34, 58, 53, 125]

/-- Response headers of an upstream that sends a content type, two cookies and its own
`Access-Control-Allow-Origin`. -/
def upstreamHeader : Header :=
  (((∅ : Header).insert "Access-Control-Allow-Origin" ["https://app.example"]).insert
    "Set-Cookie" ["a=1", "b=2"]).insert "Content-Type" ["application/json"]

/-- An upstream at `http://gateway.local` that answers every request with 200 and the JSON
object. -/
def gatewayUp : Env :=
  { apiGatewayURL := "http://gateway.local"
    newRequestError := fun _ _ => none
    clientDo := fun _ =>
      .ok { StatusCode := 200, Header := upstreamHeader, Body := jsonId5 } }

/-- The same gateway when its status line reads `HTTP/1.1 099`, which `client.Do` accepts. -/
def gatewayStatus99 : Env :=
  { apiGatewayURL := "http://gateway.local"
    newRequestError := fun _ _ => none
    clientDo := fun _ =>
      .ok { StatusCode := 99, Header := upstreamHeader, Body := jsonId5 } }

/-- The same gateway when nothing listens on its port. -/
def gatewayDown : Env :=
  { apiGatewayURL := "http://gateway.local"
    newRequestError := fun _ _ => none
    clientDo := fun r =>
      .error ("Get \"" ++ r.Target ++
        "\": dial tcp 10.0.0.7:8080: connect: connection refused") }

/-- A gateway for which `url.Parse` rejects every target (as it does for the path `/%zz`). -/
def gatewayBadURL : Env :=
  { apiGatewayURL := "http://gateway.local"
    newRequestError := fun _ _ =>
      some "parse \"http://gateway.local/%zz\": invalid URL escape \"%zz\""
    clientDo := fun _ =>
      .ok { StatusCode := 200, Header := upstreamHeader, Body := jsonId5 } }

/-- The request `GET /users/5?verbose=1` with a two-valued `Accept`, a trace id and a CORS
header. -/
def getUser : Request :=
  { Method := "GET"
    URL := { Path := "/users/5", RawQuery := "verbose=1" }
    Header := (((∅ : Header).insert "Access-Control-Allow-Headers" ["X-Custom"]).insert
      "X-Trace" ["abc"]).insert "Accept" ["application/json", "text/plain"]
    Body := [] }

/-- The request that `http.NewRequest` builds for `getUser` at `http://gateway.local`. -/
def getUserForwarded : ForwardedRequest :=
  { Method := "GET", Target := "http://gateway.local/users/5", Header := ∅, Body := [] }

/-- The request `POST /` with a body. -/
def postRoot : Request :=
  { Method := "POST"
    URL := { Path := "/", RawQuery := "" }
    Header := (∅ : Header).insert "Content-Type" ["application/json"]
    Body := jsonId5 }

/-- The request `OPTIONS /users/5`, a browser preflight. -/
def optionsUser : Request :=
  { Method := "OPTIONS"
    URL := { Path := "/users/5", RawQuery := "" }
    Header := (∅ : Header).insert "Origin" ["https://app.example"]
    Body := [] }

/-- The request `GET /%zz`, the decoded path of the request line `GET /%25zz HTTP/1.1`. -/
def getBadEscape : Request :=
  { Method := "GET"
    URL := { Path := "/%zz", RawQuery := "" }
    Header := ∅
    Body := [] }

/-- Appending the values `vs` to what a key holds (`old`): a key without values to add is
left as it is. -/
def appendValues (old : Option (List String)) (vs : List String) : Option (List String) :=
  if vs = [] then old else some (old.getD [] ++ vs)

/-! ## Header lemmas -/

theorem Header.lookup_Add (h : Header) (key value k : String)
    (hc : CanonicalMIMEHeaderKey key = key) :
    (h.Add key value).lookup k
      = if k = key then some (h.values key ++ [value]) else h.lookup k := by
  unfold Header.Add
  rw [hc]
  by_cases hk : k = key
  · subst hk
    simp
  · simp [hk, AList.lookup_insert_ne hk]

theorem Header.lookup_foldl_Add (vs : List String) (h : Header) (key k : String)
    (hc : CanonicalMIMEHeaderKey key = key) :
    (vs.foldl (fun dst value => dst.Add key value) h).lookup k
      = if k = key then appendValues (h.lookup key) vs else h.lookup k := by
  induction vs generalizing h with
  | nil =>
    by_cases hk : k = key
    · subst hk
      simp [appendValues]
    · simp [hk]
  | cons v vs ih =>
    rw [List.foldl_cons, ih]
    by_cases hk : k = key
    · subst hk
      simp [appendValues, Header.lookup_Add _ _ _ _ hc, Header.values]
    · simp [hk, Header.lookup_Add _ _ _ _ hc]

theorem lookup_copyHeadersStep (h : Header) (kv : Sigma (fun _ : String => List String))
    (k : String) (hc : CanonicalMIMEHeaderKey kv.1 = kv.1) :
    (copyHeadersStep h kv).lookup k
      = if isCORSKey kv.1 = false ∧ k = kv.1 then appendValues (h.lookup k) kv.2
        else h.lookup k := by
  unfold copyHeadersStep
  by_cases hcors : isCORSKey kv.1 = true
  · simp [hcors]
  · simp only [hcors, Bool.false_eq_true, if_false]
    rw [Header.lookup_foldl_Add _ _ _ _ hc]
    by_cases hk : k = kv.1
    · subst hk
      simp [hcors]
    · simp [hk]

theorem appendValues_nil (old : Option (List String)) : appendValues old [] = old := by
  simp [appendValues]

theorem lookup_foldl_copyHeadersStep (l : List (Sigma (fun _ : String => List String)))
    (h : Header) (k : String) (hnd : l.NodupKeys)
    (hc : ∀ a ∈ l.keys, CanonicalMIMEHeaderKey a = a) :
    (l.foldl copyHeadersStep h).lookup k
      = if isCORSKey k then h.lookup k
        else appendValues (h.lookup k) ((l.dlookup k).getD []) := by
  induction l generalizing h with
  | nil => simp [appendValues_nil]
  | cons kv t ih =>
    obtain ⟨a, vs⟩ := kv
    have hnd2 := List.nodupKeys_cons.mp hnd
    have hca : CanonicalMIMEHeaderKey a = a := hc a (by simp)
    have hct : ∀ b ∈ t.keys, CanonicalMIMEHeaderKey b = b := fun b hb => hc b (by simp [hb])
    rw [List.foldl_cons, ih _ hnd2.2 hct, lookup_copyHeadersStep _ _ _ hca]
    by_cases hk : isCORSKey k = true
    · have : ¬ (isCORSKey a = false ∧ k = a) := by
        rintro ⟨h1, h2⟩
        subst h2
        simp [hk] at h1
      simp [hk, this]
    · by_cases hka : k = a
      · subst hka
        have hnone : List.dlookup k t = none := List.dlookup_eq_none.mpr hnd2.1
        simp [hk, hnone, appendValues_nil]
      · have hne : List.dlookup k (⟨a, vs⟩ :: t) = List.dlookup k t :=
          List.dlookup_cons_ne t ⟨a, vs⟩ hka
        simp [hk, hka, hne]

theorem lookup_copyHeaders (src dst : Header) (k : String)
    (hc : ∀ a ∈ src.keys, CanonicalMIMEHeaderKey a = a) :
    (copyHeaders src dst).lookup k
      = if isCORSKey k then dst.lookup k
        else appendValues (dst.lookup k) (src.values k) :=
  lookup_foldl_copyHeadersStep src.entries dst k src.nodupKeys hc

theorem lookup_insert_empty (a k : String) (b : List String) :
    ((∅ : Header).insert a b).lookup k = if k = a then some b else none := by
  by_cases hk : k = a
  · subst hk
    rw [AList.lookup_insert, if_pos rfl]
  · rw [AList.lookup_insert_ne hk, AList.lookup_empty, if_neg hk]

theorem canonical_contentType :
    CanonicalMIMEHeaderKey "Content-Type" = "Content-Type" := by decide

theorem canonical_allowOrigin :
    CanonicalMIMEHeaderKey "Access-Control-Allow-Origin" = "Access-Control-Allow-Origin" := by
  decide

theorem canonical_allowMethods :
    CanonicalMIMEHeaderKey "Access-Control-Allow-Methods" = "Access-Control-Allow-Methods" := by
  decide

theorem canonical_allowHeaders :
    CanonicalMIMEHeaderKey "Access-Control-Allow-Headers" = "Access-Control-Allow-Headers" := by
  decide

/-- The header map `setCORSHeaders` leaves on a writer whose map was empty. -/
theorem lookup_setCORSHeaders_fresh (k : String) :
    (setCORSHeaders ResponseWriter.fresh).header.lookup k
      = if k = "Access-Control-Allow-Origin" then some ["*"]
        else if k = "Access-Control-Allow-Methods" then
          some ["POST, GET, OPTIONS, PUT, DELETE"]
        else if k = "Access-Control-Allow-Headers" then
          some ["Content-Type, Authorization, Range"]
        else none := by
  simp only [setCORSHeaders, Header.Set, ResponseWriter.fresh, canonical_allowOrigin,
    canonical_allowMethods, canonical_allowHeaders]
  by_cases h1 : k = "Access-Control-Allow-Headers"
  · subst h1
    simp
  · rw [AList.lookup_insert_ne h1]
    by_cases h2 : k = "Access-Control-Allow-Methods"
    · subst h2
      simp
    · rw [AList.lookup_insert_ne h2]
      rw [lookup_insert_empty]
      simp [h1, h2]

/-- What a successful `http.NewRequest` returns. -/
theorem NewRequest_ok (env : Env) (method url : String) (body : Bytes)
    (fr : ForwardedRequest) (h : http.NewRequest env method url body = .ok fr) :
    fr = { Method := if method = "" then "GET" else method, Target := url, Header := ∅,
           Body := body } := by
  unfold http.NewRequest at h
  split at h
  · cases h
  · cases h
    rfl

/-- After a successful construction exactly one request reaches `client.Do`: the
constructed one with the copied headers. -/
theorem doCalls_of_constructed (env : Env) (w : ResponseWriter) (req : Request)
    (fr : ForwardedRequest) (hpath : req.URL.Path ≠ "/") (hmeth : req.Method ≠ "OPTIONS")
    (hnew : http.NewRequest env req.Method (env.apiGatewayURL ++ req.URL.Path) req.Body
      = .ok fr) :
    (proxyHandler env w req).doCalls
      = [{ fr with Header := copyHeaders req.Header fr.Header }] := by
  simp only [proxyHandler, hpath, hmeth, hnew, if_false]
  repeat' split
  all_goals rfl

/-- A final status code on a writer without a final status is committed with the header
map. -/
theorem WriteHeader_final (w : ResponseWriter) (code : Int) (hs : w.sent = none)
    (hc : code = 101 ∨ (200 ≤ code ∧ code ≤ 999)) :
    w.WriteHeader code
      = some { w with statusWrites := w.statusWrites ++ [code],
                      sent := some (code, w.header) } := by
  unfold ResponseWriter.WriteHeader
  rw [hs]
  have h1 : ¬ (code < 100 ∨ code > 999) := by omega
  have h2 : ¬ (code ≥ 100 ∧ code ≤ 199 ∧ code ≠ 101) := by omega
  simp only [h1, h2, if_false]

/-- A status code below 100 or above 999 on a writer without a final status panics. -/
theorem WriteHeader_panics (w : ResponseWriter) (code : Int) (hs : w.sent = none)
    (hc : code < 100 ∨ code > 999) : w.WriteHeader code = none := by
  unfold ResponseWriter.WriteHeader
  rw [hs]
  simp only [hc, if_true]

/-- The writer `http.Error` leaves on an unanswered request, for a final status code. -/
theorem Error_fresh (msg : String) (code : Int)
    (hc : code = 101 ∨ (200 ≤ code ∧ code ≤ 999)) :
    http.Error ResponseWriter.fresh msg code
      = some { header := errorHeader, statusWrites := [code],
               sent := some (code, errorHeader), body := bytesOf (msg ++ "\n") } := by
  have h1 : CanonicalMIMEHeaderKey "Content-Length" = "Content-Length" := by decide
  have h2 : CanonicalMIMEHeaderKey "X-Content-Type-Options" = "X-Content-Type-Options" := by
    decide
  have hh : (((ResponseWriter.fresh.header.Del "Content-Length").Set "Content-Type"
      "text/plain; charset=utf-8").Set "X-Content-Type-Options" "nosniff") = errorHeader := by
    simp only [Header.Set, Header.Del, h1, h2, canonical_contentType, ResponseWriter.fresh]
    rfl
  unfold http.Error
  simp only [hh]
  rw [WriteHeader_final _ _ rfl hc]
  simp only [ResponseWriter.Write, ResponseWriter.fresh, List.nil_append]

/-- The writer after a run in which the upstream answered with a final status code. -/
theorem writer_of_proxied (env : Env) (req : Request) (fr : ForwardedRequest)
    (resp : Response) (hpath : req.URL.Path ≠ "/") (hmeth : req.Method ≠ "OPTIONS")
    (hnew : http.NewRequest env req.Method (env.apiGatewayURL ++ req.URL.Path) req.Body
      = .ok fr)
    (hdo : env.clientDo { fr with Header := copyHeaders req.Header fr.Header } = .ok resp)
    (hstatus : resp.StatusCode = 101 ∨ (200 ≤ resp.StatusCode ∧ resp.StatusCode ≤ 999)) :
    (proxyHandler env ResponseWriter.fresh req).w
        = { header := copyHeaders resp.Header (setCORSHeaders ResponseWriter.fresh).header
            statusWrites := [resp.StatusCode]
            sent := some (resp.StatusCode,
              copyHeaders resp.Header (setCORSHeaders ResponseWriter.fresh).header)
            body := resp.Body } ∧
      (proxyHandler env ResponseWriter.fresh req).outcome = Outcome.proxied := by
  have hw := WriteHeader_final
    { setCORSHeaders ResponseWriter.fresh with
      header := copyHeaders resp.Header (setCORSHeaders ResponseWriter.fresh).header }
    resp.StatusCode rfl hstatus
  simp only [proxyHandler, hpath, hmeth, hnew, hdo, if_false, hw]
  by_cases hb : resp.Body = []
  · simp [io.Copy, hb, setCORSHeaders, ResponseWriter.fresh]
  · simp [io.Copy, hb, ResponseWriter.Write, setCORSHeaders, ResponseWriter.fresh]

/-- The writer after a run in which the upstream answered with a status code that
`WriteHeader` rejects: the handler panics with nothing sent. -/
theorem writer_of_rejected_status (env : Env) (req : Request) (fr : ForwardedRequest)
    (resp : Response) (hpath : req.URL.Path ≠ "/") (hmeth : req.Method ≠ "OPTIONS")
    (hnew : http.NewRequest env req.Method (env.apiGatewayURL ++ req.URL.Path) req.Body
      = .ok fr)
    (hdo : env.clientDo { fr with Header := copyHeaders req.Header fr.Header } = .ok resp)
    (hstatus : resp.StatusCode < 100 ∨ resp.StatusCode > 999) :
    (proxyHandler env ResponseWriter.fresh req).outcome = Outcome.panicked ∧
      (proxyHandler env ResponseWriter.fresh req).w.sent = none ∧
      (proxyHandler env ResponseWriter.fresh req).w.statusWrites = [] ∧
      (proxyHandler env ResponseWriter.fresh req).w.body = [] := by
  have hw := WriteHeader_panics
    { setCORSHeaders ResponseWriter.fresh with
      header := copyHeaders resp.Header (setCORSHeaders ResponseWriter.fresh).header }
    resp.StatusCode rfl hstatus
  simp only [proxyHandler, hpath, hmeth, hnew, hdo, if_false, hw]
  simp [setCORSHeaders, ResponseWriter.fresh]

/-- The writer after a run in which the upstream call returned an error. -/
theorem writer_of_upstream_error (env : Env) (req : Request) (fr : ForwardedRequest)
    (err : String) (hpath : req.URL.Path ≠ "/") (hmeth : req.Method ≠ "OPTIONS")
    (hnew : http.NewRequest env req.Method (env.apiGatewayURL ++ req.URL.Path) req.Body
      = .ok fr)
    (hdo : env.clientDo { fr with Header := copyHeaders req.Header fr.Header }
      = .error err) :
    (proxyHandler env ResponseWriter.fresh req).w
        = { header := errorHeader, statusWrites := [503], sent := some (503, errorHeader),
            body := bytesOf ("Service unavailable" ++ "\n") } ∧
      (proxyHandler env ResponseWriter.fresh req).outcome = Outcome.serviceUnavailable := by
  have he := Error_fresh "Service unavailable" 503 (by decide)
  simp only [proxyHandler, hpath, hmeth, hnew, hdo, if_false, he, and_self]

/-- The writer and the outcome after a failed construction. -/
theorem writer_of_failed_construction (env : Env) (req : Request) (err : String)
    (hpath : req.URL.Path ≠ "/") (hmeth : req.Method ≠ "OPTIONS")
    (hnew : http.NewRequest env req.Method (env.apiGatewayURL ++ req.URL.Path) req.Body
      = .error err) :
    (proxyHandler env ResponseWriter.fresh req).w
        = { header := errorHeader, statusWrites := [400], sent := some (400, errorHeader),
            body := bytesOf ("Bad request" ++ "\n") } ∧
      (proxyHandler env ResponseWriter.fresh req).outcome = Outcome.badRequest ∧
      (proxyHandler env ResponseWriter.fresh req).doCalls = [] := by
  have he := Error_fresh "Bad request" 400 (by decide)
  simp only [proxyHandler, hpath, hmeth, hnew, if_false, he, and_self]

/-- A forwarded request makes exactly one `http.NewRequest` call, with the inbound method,
the base URL followed by the inbound path, and the inbound body. -/
theorem newRequestCalls_of_forwarded (env : Env) (w : ResponseWriter) (req : Request)
    (hpath : req.URL.Path ≠ "/") (hmeth : req.Method ≠ "OPTIONS") :
    (proxyHandler env w req).newRequestCalls
      = [(req.Method, env.apiGatewayURL ++ req.URL.Path, req.Body)] := by
  simp only [proxyHandler, hpath, hmeth, if_false]
  repeat' split
  all_goals rfl

/-- The response of a writer without a final status. -/
theorem response_of_not_sent (w : ResponseWriter) (h : w.sent = none) :
    w.response = none := by
  unfold ResponseWriter.response
  rw [h]
  rfl

/-- A key a header map holds with at least one value is looked up to that non-empty list;
a key it does not hold has no values. -/
theorem appendValues_none_values (h : Header) (k : String)
    (hvals : ∀ a ∈ h.keys, h.values a ≠ []) :
    appendValues none (h.values k) = h.lookup k := by
  unfold appendValues
  cases hl : AList.lookup k h with
  | none => simp [Header.values, hl]
  | some vs =>
    have hmem : k ∈ h.keys := by
      rw [← AList.mem_keys, ← AList.lookup_isSome, hl]
      rfl
    have hne := hvals k hmem
    simp only [Header.values, hl, Option.getD_some] at hne ⊢
    simp [hne]

/-! ## The claims -/

/-- C1: for a forwarded request (path other than `/`, method other than `OPTIONS`, outbound
request constructed) whose header map is as the server parses it, with keys in canonical
form and at least one value under each key, the header map of the request handed to
`client.Do` is the inbound map without the three keys `Access-Control-Allow-Origin`,
`Access-Control-Allow-Methods` and `Access-Control-Allow-Headers`: every other key is
present with exactly the inbound list of values, and none of the three is present. -/
theorem C1_outbound_headers (env : Env) (req : Request) (fr : ForwardedRequest)
    (hpath : req.URL.Path ≠ "/") (hmeth : req.Method ≠ "OPTIONS")
    (hnew : http.NewRequest env req.Method (env.apiGatewayURL ++ req.URL.Path) req.Body
      = .ok fr)
    (hcanon : ∀ k ∈ req.Header.keys, CanonicalMIMEHeaderKey k = k)
    (hvals : ∀ k ∈ req.Header.keys, req.Header.values k ≠ []) :
    ∃ out : ForwardedRequest,
      (proxyHandler env ResponseWriter.fresh req).doCalls = [out] ∧
        ∀ k, out.Header.lookup k
          = if k = "Access-Control-Allow-Origin" ∨ k = "Access-Control-Allow-Methods" ∨
                k = "Access-Control-Allow-Headers" then none
            else req.Header.lookup k := by
  refine ⟨_, doCalls_of_constructed env _ req fr hpath hmeth hnew, ?_⟩
  intro k
  have hfr := NewRequest_ok _ _ _ _ _ hnew
  subst hfr
  simp only [lookup_copyHeaders _ _ _ hcanon, AList.lookup_empty,
    appendValues_none_values _ _ hvals]
  by_cases hk : isCORSKey k = true
  · have hk2 := hk
    simp only [isCORSKey, Bool.or_eq_true, decide_eq_true_eq] at hk2
    have hk3 : k = "Access-Control-Allow-Origin" ∨ k = "Access-Control-Allow-Methods" ∨
        k = "Access-Control-Allow-Headers" := by tauto
    simp only [hk, hk3, if_true]
  · have hk2 := hk
    simp only [isCORSKey, Bool.or_eq_true, decide_eq_true_eq] at hk2
    have hk3 : ¬ (k = "Access-Control-Allow-Origin" ∨ k = "Access-Control-Allow-Methods" ∨
        k = "Access-Control-Allow-Headers") := by tauto
    simp [hk, hk3]

/-- Witness of C1: `GET /users/5` with a two-valued `Accept`, `X-Trace` and a CORS header. -/
theorem C1_outbound_headers_witness :
    (getUser.URL.Path ≠ "/" ∧ getUser.Method ≠ "OPTIONS" ∧
      http.NewRequest gatewayUp getUser.Method
          (gatewayUp.apiGatewayURL ++ getUser.URL.Path) getUser.Body = .ok getUserForwarded ∧
      (∀ k ∈ getUser.Header.keys, CanonicalMIMEHeaderKey k = k) ∧
      (∀ k ∈ getUser.Header.keys, getUser.Header.values k ≠ [])) ∧
    ∃ out : ForwardedRequest,
      (proxyHandler gatewayUp ResponseWriter.fresh getUser).doCalls = [out] ∧
        ∀ k, out.Header.lookup k
          = if k = "Access-Control-Allow-Origin" ∨ k = "Access-Control-Allow-Methods" ∨
                k = "Access-Control-Allow-Headers" then none
            else getUser.Header.lookup k :=
  ⟨⟨by decide, by decide, rfl, by decide, by decide⟩,
    C1_outbound_headers gatewayUp getUser getUserForwarded
      (by decide) (by decide) rfl (by decide) (by decide)⟩

/-- C2: when the upstream call succeeds with a final status and a header map as the client
returns it, with keys in canonical form and at least one value under each key, the header
map of the final response holds the three CORS headers, each with exactly its one fixed
value whatever the upstream sent under that key, and every other upstream key with its
values unchanged; it holds no other key. -/
theorem C2_response_headers (env : Env) (req : Request) (fr : ForwardedRequest)
    (resp : Response) (hpath : req.URL.Path ≠ "/") (hmeth : req.Method ≠ "OPTIONS")
    (hnew : http.NewRequest env req.Method (env.apiGatewayURL ++ req.URL.Path) req.Body
      = .ok fr)
    (hdo : env.clientDo { fr with Header := copyHeaders req.Header fr.Header } = .ok resp)
    (hstatus : resp.StatusCode = 101 ∨ (200 ≤ resp.StatusCode ∧ resp.StatusCode ≤ 999))
    (hcanon : ∀ k ∈ resp.Header.keys, CanonicalMIMEHeaderKey k = k)
    (hvals : ∀ k ∈ resp.Header.keys, resp.Header.values k ≠ []) :
    ∃ (code : Int) (hdr : Header) (body : Bytes),
      (proxyHandler env ResponseWriter.fresh req).w.response = some (code, hdr, body) ∧
        ∀ k, hdr.lookup k
          = if k = "Access-Control-Allow-Origin" then some ["*"]
            else if k = "Access-Control-Allow-Methods" then
              some ["POST, GET, OPTIONS, PUT, DELETE"]
            else if k = "Access-Control-Allow-Headers" then
              some ["Content-Type, Authorization, Range"]
            else resp.Header.lookup k := by
  refine ⟨resp.StatusCode,
    copyHeaders resp.Header (setCORSHeaders ResponseWriter.fresh).header, resp.Body, ?_, ?_⟩
  · rw [(writer_of_proxied env req fr resp hpath hmeth hnew hdo hstatus).1]
    rfl
  · intro k
    rw [lookup_copyHeaders _ _ _ hcanon, lookup_setCORSHeaders_fresh]
    by_cases h1 : k = "Access-Control-Allow-Origin"
    · simp [h1, isCORSKey]
    · by_cases h2 : k = "Access-Control-Allow-Methods"
      · simp [h2, isCORSKey]
      · by_cases h3 : k = "Access-Control-Allow-Headers"
        · simp [h3, isCORSKey]
        · simp only [isCORSKey, h1, h2, h3, decide_False, Bool.or_self, Bool.false_eq_true,
            if_false, appendValues_none_values _ _ hvals]

/-- Witness of C2: the upstream answers `GET /users/5` with 200, a content type, two
cookies and its own `Access-Control-Allow-Origin`. -/
theorem C2_response_headers_witness :
    (getUser.URL.Path ≠ "/" ∧ getUser.Method ≠ "OPTIONS" ∧
      http.NewRequest gatewayUp getUser.Method
          (gatewayUp.apiGatewayURL ++ getUser.URL.Path) getUser.Body = .ok getUserForwarded ∧
      gatewayUp.clientDo
          { getUserForwarded with
            Header := copyHeaders getUser.Header getUserForwarded.Header }
        = .ok { StatusCode := 200, Header := upstreamHeader, Body := jsonId5 } ∧
      (∀ k ∈ upstreamHeader.keys, CanonicalMIMEHeaderKey k = k) ∧
      (∀ k ∈ upstreamHeader.keys, upstreamHeader.values k ≠ [])) ∧
    ∃ (code : Int) (hdr : Header) (body : Bytes),
      (proxyHandler gatewayUp ResponseWriter.fresh getUser).w.response
          = some (code, hdr, body) ∧
        ∀ k, hdr.lookup k
          = if k = "Access-Control-Allow-Origin" then some ["*"]
            else if k = "Access-Control-Allow-Methods" then
              some ["POST, GET, OPTIONS, PUT, DELETE"]
            else if k = "Access-Control-Allow-Headers" then
              some ["Content-Type, Authorization, Range"]
            else upstreamHeader.lookup k :=
  ⟨⟨by decide, by decide, rfl, rfl, by decide, by decide⟩,
    C2_response_headers gatewayUp getUser getUserForwarded
      { StatusCode := 200, Header := upstreamHeader, Body := jsonId5 }
      (by decide) (by decide) rfl rfl (by decide) (by decide) (by decide)⟩

/-- C3: a request whose path is exactly `/`, whatever its method, headers and body, is
answered with status 200, the single header `Content-Type: text/plain` and the fixed banner
as body; neither `http.NewRequest` nor `client.Do` is called. -/
theorem C3_root_response (env : Env) (req : Request) (hpath : req.URL.Path = "/") :
    ∃ hdr : Header,
      (proxyHandler env ResponseWriter.fresh req).w.response
          = some (200, hdr, bytesOf "Netty server deployed by Mujahid in Golang") ∧
        (∀ k, hdr.lookup k = if k = "Content-Type" then some ["text/plain"] else none) ∧
        (proxyHandler env ResponseWriter.fresh req).outcome = Outcome.root ∧
        (proxyHandler env ResponseWriter.fresh req).newRequestCalls = [] ∧
        (proxyHandler env ResponseWriter.fresh req).doCalls = [] := by
  have hw := WriteHeader_final
    { ResponseWriter.fresh with
      header := ResponseWriter.fresh.header.Set "Content-Type" "text/plain" }
    200 rfl (by decide)
  refine ⟨(∅ : Header).insert "Content-Type" ["text/plain"], ?_, ?_, ?_, ?_, ?_⟩
  · simp only [proxyHandler, hpath, if_true, hw, ResponseWriter.Write]
    simp [ResponseWriter.response, ResponseWriter.fresh, Header.Set, canonical_contentType]
  · intro k
    exact lookup_insert_empty _ _ _
  · simp only [proxyHandler, hpath, if_true, hw, ResponseWriter.Write]
  · simp only [proxyHandler, hpath, if_true, hw, ResponseWriter.Write]
  · simp only [proxyHandler, hpath, if_true, hw, ResponseWriter.Write]

/-- Witness of C3: `POST /` with a body, against a live gateway. -/
theorem C3_root_response_witness :
    postRoot.URL.Path = "/" ∧
    ∃ hdr : Header,
      (proxyHandler gatewayUp ResponseWriter.fresh postRoot).w.response
          = some (200, hdr, bytesOf "Netty server deployed by Mujahid in Golang") ∧
        (∀ k, hdr.lookup k = if k = "Content-Type" then some ["text/plain"] else none) ∧
        (proxyHandler gatewayUp ResponseWriter.fresh postRoot).outcome = Outcome.root ∧
        (proxyHandler gatewayUp ResponseWriter.fresh postRoot).newRequestCalls = [] ∧
        (proxyHandler gatewayUp ResponseWriter.fresh postRoot).doCalls = [] :=
  ⟨by decide, C3_root_response gatewayUp postRoot (by decide)⟩

/-- C4: a request with method `OPTIONS` and a path other than `/` is answered with status
200, an empty body and a header map holding exactly the three CORS headers with their fixed
values; neither `http.NewRequest` nor `client.Do` is called. -/
theorem C4_preflight_response (env : Env) (req : Request) (hpath : req.URL.Path ≠ "/")
    (hmeth : req.Method = "OPTIONS") :
    ∃ hdr : Header,
      (proxyHandler env ResponseWriter.fresh req).w.response = some (200, hdr, []) ∧
        (∀ k, hdr.lookup k
          = if k = "Access-Control-Allow-Origin" then some ["*"]
            else if k = "Access-Control-Allow-Methods" then
              some ["POST, GET, OPTIONS, PUT, DELETE"]
            else if k = "Access-Control-Allow-Headers" then
              some ["Content-Type, Authorization, Range"]
            else none) ∧
        (proxyHandler env ResponseWriter.fresh req).outcome = Outcome.preflight ∧
        (proxyHandler env ResponseWriter.fresh req).newRequestCalls = [] ∧
        (proxyHandler env ResponseWriter.fresh req).doCalls = [] := by
  have hw := WriteHeader_final (setCORSHeaders ResponseWriter.fresh) 200 rfl (by decide)
  refine ⟨(setCORSHeaders ResponseWriter.fresh).header, ?_, lookup_setCORSHeaders_fresh,
    ?_, ?_, ?_⟩
  · simp only [proxyHandler, hpath, hmeth, if_true, if_false, hw]
    simp [ResponseWriter.response, setCORSHeaders, ResponseWriter.fresh]
  · simp only [proxyHandler, hpath, hmeth, if_true, if_false, hw]
  · simp only [proxyHandler, hpath, hmeth, if_true, if_false, hw]
  · simp only [proxyHandler, hpath, hmeth, if_true, if_false, hw]

/-- Witness of C4: the preflight `OPTIONS /users/5`. -/
theorem C4_preflight_response_witness :
    (optionsUser.URL.Path ≠ "/" ∧ optionsUser.Method = "OPTIONS") ∧
    ∃ hdr : Header,
      (proxyHandler gatewayUp ResponseWriter.fresh optionsUser).w.response
          = some (200, hdr, []) ∧
        (∀ k, hdr.lookup k
          = if k = "Access-Control-Allow-Origin" then some ["*"]
            else if k = "Access-Control-Allow-Methods" then
              some ["POST, GET, OPTIONS, PUT, DELETE"]
            else if k = "Access-Control-Allow-Headers" then
              some ["Content-Type, Authorization, Range"]
            else none) ∧
        (proxyHandler gatewayUp ResponseWriter.fresh optionsUser).outcome
          = Outcome.preflight ∧
        (proxyHandler gatewayUp ResponseWriter.fresh optionsUser).newRequestCalls = [] ∧
        (proxyHandler gatewayUp ResponseWriter.fresh optionsUser).doCalls = [] :=
  ⟨⟨by decide, by decide⟩,
    C4_preflight_response gatewayUp optionsUser (by decide) (by decide)⟩

/-- C5: for a request that is neither a root-path request nor an `OPTIONS` request, with
the non-empty method the server delivers, whose outbound request is constructed, the
request handed to `client.Do` has the inbound method, the upstream base URL followed by the
inbound path as target, and the inbound body; `http.NewRequest` was called once with
exactly these three; and the same outbound request results whatever the inbound query
string is. -/
theorem C5_outbound_construction (env : Env) (req : Request) (fr : ForwardedRequest)
    (hpath : req.URL.Path ≠ "/") (hmeth : req.Method ≠ "OPTIONS")
    (hnonempty : req.Method ≠ "")
    (hnew : http.NewRequest env req.Method (env.apiGatewayURL ++ req.URL.Path) req.Body
      = .ok fr) :
    ∃ out : ForwardedRequest,
      (proxyHandler env ResponseWriter.fresh req).doCalls = [out] ∧
        out.Method = req.Method ∧
        out.Target = env.apiGatewayURL ++ req.URL.Path ∧
        out.Body = req.Body ∧
        (proxyHandler env ResponseWriter.fresh req).newRequestCalls
          = [(req.Method, env.apiGatewayURL ++ req.URL.Path, req.Body)] ∧
        ∀ q : String,
          (proxyHandler env ResponseWriter.fresh
              { req with URL := { req.URL with RawQuery := q } }).doCalls = [out] := by
  have hfr := NewRequest_ok _ _ _ _ _ hnew
  refine ⟨_, doCalls_of_constructed env _ req fr hpath hmeth hnew, ?_, ?_, ?_,
    newRequestCalls_of_forwarded env _ req hpath hmeth, ?_⟩
  · rw [hfr]
    simp only [hnonempty, if_false]
  · rw [hfr]
  · rw [hfr]
  · intro q
    exact doCalls_of_constructed env _ { req with URL := { req.URL with RawQuery := q } } fr
      hpath hmeth hnew

/-- Witness of C5: `GET /users/5?verbose=1` against `http://gateway.local`. -/
theorem C5_outbound_construction_witness :
    (getUser.URL.Path ≠ "/" ∧ getUser.Method ≠ "OPTIONS" ∧ getUser.Method ≠ "" ∧
      http.NewRequest gatewayUp getUser.Method
          (gatewayUp.apiGatewayURL ++ getUser.URL.Path) getUser.Body
        = .ok getUserForwarded) ∧
    ∃ out : ForwardedRequest,
      (proxyHandler gatewayUp ResponseWriter.fresh getUser).doCalls = [out] ∧
        out.Method = getUser.Method ∧
        out.Target = gatewayUp.apiGatewayURL ++ getUser.URL.Path ∧
        out.Body = getUser.Body ∧
        (proxyHandler gatewayUp ResponseWriter.fresh getUser).newRequestCalls
          = [(getUser.Method, gatewayUp.apiGatewayURL ++ getUser.URL.Path, getUser.Body)] ∧
        ∀ q : String,
          (proxyHandler gatewayUp ResponseWriter.fresh
              { getUser with URL := { getUser.URL with RawQuery := q } }).doCalls = [out] :=
  ⟨⟨by decide, by decide, by decide, rfl⟩,
    C5_outbound_construction gatewayUp getUser getUserForwarded
      (by decide) (by decide) (by decide) rfl⟩

/-- C6 (amended): when the upstream call succeeds with a status code that `WriteHeader`
commits as the final status (101, or 200 to 999), the status written to the caller is the
upstream status code, written once, and the body written to the caller is the upstream
body, byte for byte, for every such status code and every body. -/
theorem C6_status_and_body (env : Env) (req : Request) (fr : ForwardedRequest)
    (resp : Response) (hpath : req.URL.Path ≠ "/") (hmeth : req.Method ≠ "OPTIONS")
    (hnew : http.NewRequest env req.Method (env.apiGatewayURL ++ req.URL.Path) req.Body
      = .ok fr)
    (hdo : env.clientDo { fr with Header := copyHeaders req.Header fr.Header }
      = .ok resp)
    (hstatus : resp.StatusCode = 101 ∨ (200 ≤ resp.StatusCode ∧ resp.StatusCode ≤ 999)) :
    (∃ hdr : Header,
      (proxyHandler env ResponseWriter.fresh req).w.response
        = some (resp.StatusCode, hdr, resp.Body)) ∧
      (proxyHandler env ResponseWriter.fresh req).w.statusWrites = [resp.StatusCode] ∧
      (proxyHandler env ResponseWriter.fresh req).w.body = resp.Body := by
  rw [(writer_of_proxied env req fr resp hpath hmeth hnew hdo hstatus).1]
  exact ⟨⟨_, rfl⟩, rfl, rfl⟩

/-- Witness of C6: the upstream answers `GET /users/5` with 200 and the JSON object. -/
theorem C6_status_and_body_witness :
    (getUser.URL.Path ≠ "/" ∧ getUser.Method ≠ "OPTIONS" ∧
      http.NewRequest gatewayUp getUser.Method
          (gatewayUp.apiGatewayURL ++ getUser.URL.Path) getUser.Body = .ok getUserForwarded ∧
      gatewayUp.clientDo
          { getUserForwarded with
            Header := copyHeaders getUser.Header getUserForwarded.Header }
        = .ok { StatusCode := 200, Header := upstreamHeader, Body := jsonId5 }) ∧
    (∃ hdr : Header,
      (proxyHandler gatewayUp ResponseWriter.fresh getUser).w.response
        = some (200, hdr, jsonId5)) ∧
      (proxyHandler gatewayUp ResponseWriter.fresh getUser).w.statusWrites = [200] ∧
      (proxyHandler gatewayUp ResponseWriter.fresh getUser).w.body = jsonId5 :=
  ⟨⟨by decide, by decide, rfl, rfl⟩,
    C6_status_and_body gatewayUp getUser getUserForwarded
      { StatusCode := 200, Header := upstreamHeader, Body := jsonId5 }
      (by decide) (by decide) rfl rfl (by decide)⟩

/-- Counterexample to C6 as stated: the upstream answers `GET /users/5` with the status line
`HTTP/1.1 099` and the JSON object.  The upstream call succeeds, `WriteHeader(99)` panics,
and the caller gets neither the status 99 nor the body. -/
theorem C6_counterexample :
    (getUser.URL.Path ≠ "/" ∧ getUser.Method ≠ "OPTIONS" ∧
      http.NewRequest gatewayStatus99 getUser.Method
          (gatewayStatus99.apiGatewayURL ++ getUser.URL.Path) getUser.Body
        = .ok getUserForwarded ∧
      gatewayStatus99.clientDo
          { getUserForwarded with
            Header := copyHeaders getUser.Header getUserForwarded.Header }
        = .ok { StatusCode := 99, Header := upstreamHeader, Body := jsonId5 }) ∧
    (proxyHandler gatewayStatus99 ResponseWriter.fresh getUser).outcome = Outcome.panicked ∧
    (proxyHandler gatewayStatus99 ResponseWriter.fresh getUser).w.response = none ∧
    (proxyHandler gatewayStatus99 ResponseWriter.fresh getUser).w.statusWrites = [] ∧
    (proxyHandler gatewayStatus99 ResponseWriter.fresh getUser).w.body = [] ∧
    ¬ ((∃ hdr : Header,
        (proxyHandler gatewayStatus99 ResponseWriter.fresh getUser).w.response
          = some (99, hdr, jsonId5)) ∧
      (proxyHandler gatewayStatus99 ResponseWriter.fresh getUser).w.statusWrites = [99] ∧
      (proxyHandler gatewayStatus99 ResponseWriter.fresh getUser).w.body = jsonId5) := by
  have h := writer_of_rejected_status gatewayStatus99 getUser getUserForwarded
    { StatusCode := 99, Header := upstreamHeader, Body := jsonId5 }
    (by decide) (by decide) rfl rfl (by decide)
  obtain ⟨h1, h2, h3, h4⟩ := h
  refine ⟨⟨by decide, by decide, rfl, rfl⟩, h1, response_of_not_sent _ h2, h3, h4, ?_⟩
  rintro ⟨_, hs, _⟩
  rw [h3] at hs
  cases hs

/-- C7: when the upstream call returns an error, the caller receives status 503 and the
body `http.Error` writes for the fixed message "Service unavailable" (the message and a
newline); the writer, hence the whole response, is the same for every error value: any
other run on the same request that differs only in the error returned by the upstream call
leaves an identical writer. -/
theorem C7_upstream_error (env : Env) (req : Request) (fr : ForwardedRequest)
    (err : String) (hpath : req.URL.Path ≠ "/") (hmeth : req.Method ≠ "OPTIONS")
    (hnew : http.NewRequest env req.Method (env.apiGatewayURL ++ req.URL.Path) req.Body
      = .ok fr)
    (hdo : env.clientDo { fr with Header := copyHeaders req.Header fr.Header }
      = .error err) :
    (∃ hdr : Header,
      (proxyHandler env ResponseWriter.fresh req).w.response
        = some (503, hdr, bytesOf "Service unavailable\n")) ∧
      some (proxyHandler env ResponseWriter.fresh req).w
        = http.Error ResponseWriter.fresh "Service unavailable" 503 ∧
      (proxyHandler env ResponseWriter.fresh req).w.statusWrites = [503] ∧
      ∀ (env2 : Env) (err2 : String),
        env2.apiGatewayURL = env.apiGatewayURL →
        env2.newRequestError = env.newRequestError →
        env2.clientDo { fr with Header := copyHeaders req.Header fr.Header }
          = .error err2 →
        (proxyHandler env2 ResponseWriter.fresh req).w
          = (proxyHandler env ResponseWriter.fresh req).w := by
  have hw := (writer_of_upstream_error env req fr err hpath hmeth hnew hdo).1
  refine ⟨⟨errorHeader, ?_⟩, ?_, ?_, ?_⟩
  · rw [hw]
    rfl
  · rw [hw, Error_fresh "Service unavailable" 503 (by decide)]
  · rw [hw]
  · intro env2 err2 hurl hnr hdo2
    have hnew2 : http.NewRequest env2 req.Method (env2.apiGatewayURL ++ req.URL.Path)
        req.Body = .ok fr := by
      rw [← hnew]
      simp only [http.NewRequest, hurl, hnr]
    rw [hw, (writer_of_upstream_error env2 req fr err2 hpath hmeth hnew2 hdo2).1]

/-- Witness of C7: nothing listens at the gateway, `client.Do` reports a refused
connection. -/
theorem C7_upstream_error_witness :
    (getUser.URL.Path ≠ "/" ∧ getUser.Method ≠ "OPTIONS" ∧
      http.NewRequest gatewayDown getUser.Method
          (gatewayDown.apiGatewayURL ++ getUser.URL.Path) getUser.Body
        = .ok getUserForwarded ∧
      gatewayDown.clientDo
          { getUserForwarded with
            Header := copyHeaders getUser.Header getUserForwarded.Header }
        = .error
          "Get \"http://gateway.local/users/5\": dial tcp 10.0.0.7:8080: connect: connection refused") ∧
    (∃ hdr : Header,
      (proxyHandler gatewayDown ResponseWriter.fresh getUser).w.response
        = some (503, hdr, bytesOf "Service unavailable\n")) ∧
      some (proxyHandler gatewayDown ResponseWriter.fresh getUser).w
        = http.Error ResponseWriter.fresh "Service unavailable" 503 ∧
      (proxyHandler gatewayDown ResponseWriter.fresh getUser).w.statusWrites = [503] ∧
      ∀ (env2 : Env) (err2 : String),
        env2.apiGatewayURL = gatewayDown.apiGatewayURL →
        env2.newRequestError = gatewayDown.newRequestError →
        env2.clientDo
            { getUserForwarded with
              Header := copyHeaders getUser.Header getUserForwarded.Header }
          = .error err2 →
        (proxyHandler env2 ResponseWriter.fresh getUser).w
          = (proxyHandler gatewayDown ResponseWriter.fresh getUser).w :=
  ⟨⟨by decide, by decide, rfl, rfl⟩,
    C7_upstream_error gatewayDown getUser getUserForwarded
      "Get \"http://gateway.local/users/5\": dial tcp 10.0.0.7:8080: connect: connection refused"
      (by decide) (by decide) rfl rfl⟩

/-- C8: when `http.NewRequest` fails for a request that is neither a root-path request nor
an `OPTIONS` request, the caller receives status 400 and the body `http.Error` writes for
the fixed message "Bad request"; the handler returns at once: `client.Do` is not called. -/
theorem C8_construction_failure (env : Env) (req : Request) (err : String)
    (hpath : req.URL.Path ≠ "/") (hmeth : req.Method ≠ "OPTIONS")
    (hnew : http.NewRequest env req.Method (env.apiGatewayURL ++ req.URL.Path) req.Body
      = .error err) :
    (∃ hdr : Header,
      (proxyHandler env ResponseWriter.fresh req).w.response
        = some (400, hdr, bytesOf "Bad request\n")) ∧
      some (proxyHandler env ResponseWriter.fresh req).w
        = http.Error ResponseWriter.fresh "Bad request" 400 ∧
      (proxyHandler env ResponseWriter.fresh req).w.statusWrites = [400] ∧
      (proxyHandler env ResponseWriter.fresh req).outcome = Outcome.badRequest ∧
      (proxyHandler env ResponseWriter.fresh req).doCalls = [] := by
  obtain ⟨hw, ho, hd⟩ := writer_of_failed_construction env req err hpath hmeth hnew
  refine ⟨⟨errorHeader, ?_⟩, ?_, ?_, ho, hd⟩
  · rw [hw]
    rfl
  · rw [hw, Error_fresh "Bad request" 400 (by decide)]
  · rw [hw]

/-- Witness of C8: `GET /%zz`, whose target `url.Parse` rejects. -/
theorem C8_construction_failure_witness :
    (getBadEscape.URL.Path ≠ "/" ∧ getBadEscape.Method ≠ "OPTIONS" ∧
      http.NewRequest gatewayBadURL getBadEscape.Method
          (gatewayBadURL.apiGatewayURL ++ getBadEscape.URL.Path) getBadEscape.Body
        = .error "parse \"http://gateway.local/%zz\": invalid URL escape \"%zz\"") ∧
    (∃ hdr : Header,
      (proxyHandler gatewayBadURL ResponseWriter.fresh getBadEscape).w.response
        = some (400, hdr, bytesOf "Bad request\n")) ∧
      some (proxyHandler gatewayBadURL ResponseWriter.fresh getBadEscape).w
        = http.Error ResponseWriter.fresh "Bad request" 400 ∧
      (proxyHandler gatewayBadURL ResponseWriter.fresh getBadEscape).w.statusWrites
        = [400] ∧
      (proxyHandler gatewayBadURL ResponseWriter.fresh getBadEscape).outcome
        = Outcome.badRequest ∧
      (proxyHandler gatewayBadURL ResponseWriter.fresh getBadEscape).doCalls = [] :=
  ⟨⟨by decide, by decide, rfl⟩,
    C8_construction_failure gatewayBadURL getBadEscape
      "parse \"http://gateway.local/%zz\": invalid URL escape \"%zz\""
      (by decide) (by decide) rfl⟩

/-- C9 (amended): every run of `proxyHandler` on an unanswered request in which the
upstream, if it is called and answers, answers with a status code that `WriteHeader` commits
as the final status (101, or 200 to 999), ends in exactly one of the five outcomes (root,
preflight, 400, 503, proxied), determined by the path, the method, the result of the
construction and the result of the upstream call, and on each of them `WriteHeader` has
been called exactly once, with the status of that outcome. -/
theorem C9_single_outcome (env : Env) (req : Request)
    (hstatus : req.URL.Path ≠ "/" → req.Method ≠ "OPTIONS" →
      ∀ (fr : ForwardedRequest) (resp : Response),
        http.NewRequest env req.Method (env.apiGatewayURL ++ req.URL.Path) req.Body
          = .ok fr →
        env.clientDo { fr with Header := copyHeaders req.Header fr.Header } = .ok resp →
        resp.StatusCode = 101 ∨ (200 ≤ resp.StatusCode ∧ resp.StatusCode ≤ 999)) :
    ∃ (code : Int) (hdr : Header),
      (proxyHandler env ResponseWriter.fresh req).w.sent = some (code, hdr) ∧
      (proxyHandler env ResponseWriter.fresh req).w.statusWrites = [code] ∧
      (((proxyHandler env ResponseWriter.fresh req).outcome = Outcome.root ∧
          req.URL.Path = "/" ∧ code = 200) ∨
        ((proxyHandler env ResponseWriter.fresh req).outcome = Outcome.preflight ∧
          req.URL.Path ≠ "/" ∧ req.Method = "OPTIONS" ∧ code = 200) ∨
        ((proxyHandler env ResponseWriter.fresh req).outcome = Outcome.badRequest ∧
          req.URL.Path ≠ "/" ∧ req.Method ≠ "OPTIONS" ∧ code = 400 ∧
          ∃ err, http.NewRequest env req.Method (env.apiGatewayURL ++ req.URL.Path)
            req.Body = .error err) ∨
        ((proxyHandler env ResponseWriter.fresh req).outcome = Outcome.serviceUnavailable ∧
          req.URL.Path ≠ "/" ∧ req.Method ≠ "OPTIONS" ∧ code = 503 ∧
          ∃ fr err, http.NewRequest env req.Method (env.apiGatewayURL ++ req.URL.Path)
              req.Body = .ok fr ∧
            env.clientDo { fr with Header := copyHeaders req.Header fr.Header }
              = .error err) ∨
        ((proxyHandler env ResponseWriter.fresh req).outcome = Outcome.proxied ∧
          req.URL.Path ≠ "/" ∧ req.Method ≠ "OPTIONS" ∧
          ∃ fr resp, http.NewRequest env req.Method (env.apiGatewayURL ++ req.URL.Path)
              req.Body = .ok fr ∧
            env.clientDo { fr with Header := copyHeaders req.Header fr.Header }
              = .ok resp ∧
            code = resp.StatusCode)) := by
  by_cases hpath : req.URL.Path = "/"
  · have hw := WriteHeader_final
      { ResponseWriter.fresh with
        header := ResponseWriter.fresh.header.Set "Content-Type" "text/plain" }
      200 rfl (by decide)
    refine ⟨200, ResponseWriter.fresh.header.Set "Content-Type" "text/plain", ?_, ?_,
      Or.inl ⟨?_, hpath, rfl⟩⟩
    · simp only [proxyHandler, hpath, if_true, hw, ResponseWriter.Write]
    · simp only [proxyHandler, hpath, if_true, hw, ResponseWriter.Write]
      rfl
    · simp only [proxyHandler, hpath, if_true, hw, ResponseWriter.Write]
  · by_cases hmeth : req.Method = "OPTIONS"
    · have hw := WriteHeader_final (setCORSHeaders ResponseWriter.fresh) 200 rfl (by decide)
      refine ⟨200, (setCORSHeaders ResponseWriter.fresh).header, ?_, ?_,
        Or.inr (Or.inl ⟨?_, hpath, hmeth, rfl⟩)⟩
      · simp only [proxyHandler, hpath, hmeth, if_true, if_false, hw]
      · simp only [proxyHandler, hpath, hmeth, if_true, if_false, hw]
        rfl
      · simp only [proxyHandler, hpath, hmeth, if_true, if_false, hw]
    · cases hnew : http.NewRequest env req.Method (env.apiGatewayURL ++ req.URL.Path)
          req.Body with
      | error err =>
        obtain ⟨hw, ho, _⟩ := writer_of_failed_construction env req err hpath hmeth hnew
        refine ⟨400, errorHeader, ?_, ?_,
          Or.inr (Or.inr (Or.inl ⟨ho, hpath, hmeth, rfl, err, rfl⟩))⟩
        · rw [hw]
        · rw [hw]
      | ok fr =>
        cases hdo : env.clientDo { fr with Header := copyHeaders req.Header fr.Header } with
        | error err =>
          obtain ⟨hw, ho⟩ := writer_of_upstream_error env req fr err hpath hmeth hnew hdo
          refine ⟨503, errorHeader, ?_, ?_,
            Or.inr (Or.inr (Or.inr (Or.inl ⟨ho, hpath, hmeth, rfl, fr, err, rfl, hdo⟩)))⟩
          · rw [hw]
          · rw [hw]
        | ok resp =>
          obtain ⟨hw, ho⟩ := writer_of_proxied env req fr resp hpath hmeth hnew hdo
            (hstatus hpath hmeth fr resp hnew hdo)
          refine ⟨resp.StatusCode,
            copyHeaders resp.Header (setCORSHeaders ResponseWriter.fresh).header, ?_, ?_,
            Or.inr (Or.inr (Or.inr (Or.inr ⟨ho, hpath, hmeth, fr, resp, rfl, hdo, rfl⟩)))⟩
          · rw [hw]
          · rw [hw]

/-- Witness of C9: `GET /users/5` against the gateway that answers 200. -/
theorem C9_single_outcome_witness :
    (getUser.URL.Path ≠ "/" → getUser.Method ≠ "OPTIONS" →
      ∀ (fr : ForwardedRequest) (resp : Response),
        http.NewRequest gatewayUp getUser.Method
            (gatewayUp.apiGatewayURL ++ getUser.URL.Path) getUser.Body = .ok fr →
        gatewayUp.clientDo { fr with Header := copyHeaders getUser.Header fr.Header }
          = .ok resp →
        resp.StatusCode = 101 ∨ (200 ≤ resp.StatusCode ∧ resp.StatusCode ≤ 999)) ∧
    (proxyHandler gatewayUp ResponseWriter.fresh getUser).outcome = Outcome.proxied ∧
    (proxyHandler gatewayUp ResponseWriter.fresh getUser).w.statusWrites = [200] ∧
    ∃ (code : Int) (hdr : Header),
      (proxyHandler gatewayUp ResponseWriter.fresh getUser).w.sent = some (code, hdr) ∧
      (proxyHandler gatewayUp ResponseWriter.fresh getUser).w.statusWrites = [code] ∧
      (((proxyHandler gatewayUp ResponseWriter.fresh getUser).outcome = Outcome.root ∧
          getUser.URL.Path = "/" ∧ code = 200) ∨
        ((proxyHandler gatewayUp ResponseWriter.fresh getUser).outcome = Outcome.preflight ∧
          getUser.URL.Path ≠ "/" ∧ getUser.Method = "OPTIONS" ∧ code = 200) ∨
        ((proxyHandler gatewayUp ResponseWriter.fresh getUser).outcome = Outcome.badRequest ∧
          getUser.URL.Path ≠ "/" ∧ getUser.Method ≠ "OPTIONS" ∧ code = 400 ∧
          ∃ err, http.NewRequest gatewayUp getUser.Method
            (gatewayUp.apiGatewayURL ++ getUser.URL.Path) getUser.Body = .error err) ∨
        ((proxyHandler gatewayUp ResponseWriter.fresh getUser).outcome
            = Outcome.serviceUnavailable ∧
          getUser.URL.Path ≠ "/" ∧ getUser.Method ≠ "OPTIONS" ∧ code = 503 ∧
          ∃ fr err, http.NewRequest gatewayUp getUser.Method
              (gatewayUp.apiGatewayURL ++ getUser.URL.Path) getUser.Body = .ok fr ∧
            gatewayUp.clientDo { fr with Header := copyHeaders getUser.Header fr.Header }
              = .error err) ∨
        ((proxyHandler gatewayUp ResponseWriter.fresh getUser).outcome = Outcome.proxied ∧
          getUser.URL.Path ≠ "/" ∧ getUser.Method ≠ "OPTIONS" ∧
          ∃ fr resp, http.NewRequest gatewayUp getUser.Method
              (gatewayUp.apiGatewayURL ++ getUser.URL.Path) getUser.Body = .ok fr ∧
            gatewayUp.clientDo { fr with Header := copyHeaders getUser.Header fr.Header }
              = .ok resp ∧
            code = resp.StatusCode)) :=
  have hstatus : getUser.URL.Path ≠ "/" → getUser.Method ≠ "OPTIONS" →
      ∀ (fr : ForwardedRequest) (resp : Response),
        http.NewRequest gatewayUp getUser.Method
            (gatewayUp.apiGatewayURL ++ getUser.URL.Path) getUser.Body = .ok fr →
        gatewayUp.clientDo { fr with Header := copyHeaders getUser.Header fr.Header }
          = .ok resp →
        resp.StatusCode = 101 ∨ (200 ≤ resp.StatusCode ∧ resp.StatusCode ≤ 999) := by
    intro _ _ fr resp _ h
    have e : ({ StatusCode := 200, Header := upstreamHeader, Body := jsonId5 } : Response)
        = resp := Except.ok.inj h
    subst e
    decide
  ⟨hstatus, rfl, rfl, C9_single_outcome gatewayUp getUser hstatus⟩

/-- Counterexample to C9 as stated: the upstream answers `GET /users/5` with the status line
`HTTP/1.1 099`.  The construction and the upstream call succeed, `WriteHeader(99)` panics:
the run ends in none of the five outcomes, no status has been written, and the final log
line is missing. -/
theorem C9_counterexample :
    (http.NewRequest gatewayStatus99 getUser.Method
          (gatewayStatus99.apiGatewayURL ++ getUser.URL.Path) getUser.Body
        = .ok getUserForwarded ∧
      gatewayStatus99.clientDo
          { getUserForwarded with
            Header := copyHeaders getUser.Header getUserForwarded.Header }
        = .ok { StatusCode := 99, Header := upstreamHeader, Body := jsonId5 }) ∧
    (proxyHandler gatewayStatus99 ResponseWriter.fresh getUser).outcome = Outcome.panicked ∧
    (proxyHandler gatewayStatus99 ResponseWriter.fresh getUser).w.sent = none ∧
    (proxyHandler gatewayStatus99 ResponseWriter.fresh getUser).w.statusWrites = [] ∧
    (proxyHandler gatewayStatus99 ResponseWriter.fresh getUser).log
      = ["Received GET request for /users/5"] ∧
    ¬ ∃ (code : Int) (hdr : Header),
      (proxyHandler gatewayStatus99 ResponseWriter.fresh getUser).w.sent = some (code, hdr) ∧
      (proxyHandler gatewayStatus99 ResponseWriter.fresh getUser).w.statusWrites = [code] := by
  have h := writer_of_rejected_status gatewayStatus99 getUser getUserForwarded
    { StatusCode := 99, Header := upstreamHeader, Body := jsonId5 }
    (by decide) (by decide) rfl rfl (by decide)
  obtain ⟨h1, h2, h3, _⟩ := h
  refine ⟨⟨rfl, rfl⟩, h1, h2, h3, by decide, ?_⟩
  rintro ⟨code, hdr, hs, _⟩
  rw [h2] at hs
  cases hs

/-- C10 (what the code does): on `GET /%zz` the construction of the outbound request fails
with a URL parse error and the handler answers 400, but the only line it logs is the
per-request line: the cause is not logged.  On the sibling path, the failed upstream call
for `GET /users/5`, the cause is logged. -/
theorem C10_cause_not_logged :
    http.NewRequest gatewayBadURL getBadEscape.Method
        (gatewayBadURL.apiGatewayURL ++ getBadEscape.URL.Path) getBadEscape.Body
      = .error "parse \"http://gateway.local/%zz\": invalid URL escape \"%zz\"" ∧
    (proxyHandler gatewayBadURL ResponseWriter.fresh getBadEscape).outcome
      = Outcome.badRequest ∧
    (proxyHandler gatewayBadURL ResponseWriter.fresh getBadEscape).log
      = ["Received GET request for /%zz"] ∧
    (proxyHandler gatewayDown ResponseWriter.fresh getUser).log
      = ["Received GET request for /users/5",
         "Error forwarding request to API Gateway: Get \"http://gateway.local/users/5\": dial tcp 10.0.0.7:8080: connect: connection refused"] := by
  refine ⟨rfl, rfl, ?_, ?_⟩
  · decide
  · decide

end NettyProxy
